import Mathlib

/-!
Shallow embedding of the stream-health and recovery engine of
src/src/LivePlayer.js.  Pure functions are translated to Lean
functions; the mutable instance fields that the health/recovery engine
reads or writes are gathered in an explicit `PlayerState` record, and
every handler of the source becomes a state-passing function.  Browser
capabilities and the network are passed in as explicit environments,
and the side effects a handler performs (scheduled reconnects, offline
declarations, playlist fetch attempts, investigation starts, synchronous
setup invocations) are returned in an `Effects` record.  The
asynchronous investigation loop is modelled by feeding it the list of
its (up to three) fetch outcomes, together with a predicate saying
before which checks the `isObservingStall` flag is observed cleared by
an interleaved external event.
-/

namespace LivePlayer

/-- JavaScript line terminators: in a regex with the `m` flag, `$`
matches before each of these and `.` matches none of them. -/
def isLineTerm (c : Char) : Bool :=
  c = '\n' || c = '\r' || c = '\u2028' || c = '\u2029'

/-- One line of text (no line terminators inside) with the regex
`\.ts\?.*$` applied: the leftmost occurrence of ".ts?" and everything
after it up to the end of the line is replaced by ".ts"; a line with no
".ts?" occurrence is unchanged.  This is the per-line effect of
`m3u8Content.replace(/\.ts\?.*$/gm, '.ts')` in `normalizeM3u8Content`
(src/src/LivePlayer.js:931). -/
def stripSegList : List Char → List Char
  | [] => []
  | c :: rest =>
    if c = '.' ∧ rest.take 3 = ['t', 's', '?'] then ['.', 't', 's']
    else c :: stripSegList rest

/-- Applies `stripSegList` to every line of a character stream, keeping
the line terminators.  `acc` holds the (reversed) characters of the
line currently being scanned.  This is the whole-string effect of the
global multiline replace in `normalizeM3u8Content`. -/
def normAux : List Char → List Char → List Char
  | acc, [] => stripSegList acc.reverse
  | acc, c :: rest =>
    if isLineTerm c then stripSegList acc.reverse ++ c :: normAux [] rest
    else normAux (c :: acc) rest

/-- `normalizeM3u8Content` (src/src/LivePlayer.js:925-932).  The source
guard is `if (!m3u8Content) return null;`, so by JavaScript falsiness
both `null` and the empty string map to `null`. -/
def normalizeM3u8Content : Option String → Option String
  | none => none
  | some s => if s = "" then none else some ⟨normAux [] s.data⟩

/-- Model of JavaScript `String.prototype.endsWith`. -/
def endsWithStr (s suf : String) : Bool := suf.data.isSuffixOf s.data

/-- Model of JavaScript `String.prototype.startsWith`. -/
def startsWithStr (s pre : String) : Bool := pre.data.isPrefixOf s.data

/-- JavaScript truthiness of a `string | null` value: `null` and the
empty string are falsy. -/
def strTruthy : Option String → Bool
  | none => false
  | some s => !(s == "")

/-- The player types dispatched by `setupPlayer`. -/
inductive PType
  | flv
  | hls
deriving DecidableEq, Repr

/-- One parsed stream line (`parseStreamUrls` output entries). -/
structure StreamSource where
  name : String
  url : String
  fallback : Option String
deriving DecidableEq, Repr

/-- The mutable instance fields of the `LivePlayer` class that the
health/recovery engine reads or writes.  Timer/interval handles are
modelled by whether an armed timer exists; player instances by whether
the instance exists and whether it is currently loading; overlays by
whether they are displayed. -/
structure PlayerState where
  currentUrl : Option String
  userSelectedUrl : Option String
  recoveryAttempts : Nat
  maxRecoveryAttempts : Nat
  isObservingStall : Bool
  stallObserverTimer : Bool
  lastKnownStaleContent : Option String
  offlinePoller : Bool
  latencyChecker : Bool
  currentPlayerType : Option PType
  flvPlayer : Bool
  flvLoaded : Bool
  hlsPlayer : Bool
  hlsLoadActive : Bool
  videoSrc : Option String
  isLoading : Bool
  loadingOverlay : Bool
  offlineOverlay : Bool
  errorOverlay : Bool
deriving DecidableEq, Repr

/-- Side effects performed by a handler beyond mutating `PlayerState`:
`sched` records `setTimeout`-scheduled recovery setups (target url and
reason, not yet executed), `offl` counts `declareStreamOffline`
invocations, `fetchCount` counts investigation fetch attempts,
`invStart` records that `investigateHlsFailure` was launched, and
`setups` records synchronous `setupPlayer` invocations. -/
structure Effects where
  sched : List (Option String × String) := []
  offl : Nat := 0
  fetchCount : Nat := 0
  invStart : Bool := false
  setups : List (String × String) := []
deriving DecidableEq, Repr

/-- Browser/configuration environment of a setup call. -/
structure PlayerEnv where
  flvSupported : Bool
  nativeHls : Bool
  hlsJsSupported : Bool
  liveEdgeEnabled : Bool
  streamUrlList : List StreamSource
deriving Repr

/-- Network environment of an offline-poller tick: outcome of a HEAD
probe, outcome of a GET fetch (`none` models a network error or a
non-ok response), and URL resolution (`new URL(uri, base).href`). -/
structure NetEnv where
  headOk : String → Bool
  fetchGet : String → Option String
  resolve : String → String → String

/-- `displayError` (src/src/LivePlayer.js:458): hides the loading
overlay and shows the error overlay. -/
def displayError (s : PlayerState) : PlayerState :=
  {s with loadingOverlay := false, errorOverlay := true}

/-- `clearOfflineState` (src/src/LivePlayer.js:1029): stops the offline
poller and hides the offline overlay. -/
def clearOfflineState (s : PlayerState) : PlayerState :=
  {s with offlinePoller := false, offlineOverlay := false}

/-- `resetStallObservation` (src/src/LivePlayer.js:1117): clears the
stall observer timer and the investigation lock. -/
def resetStallObservation (s : PlayerState) : PlayerState :=
  {s with stallObserverTimer := false, isObservingStall := false}

/-- `declareStreamOffline` (src/src/LivePlayer.js:1152): stops the
active player, shows the offline overlay, resets the recovery counter
to 0 and starts the offline poller (`handleOfflineState` arms the
interval). -/
def declareStreamOffline (s : PlayerState) : PlayerState :=
  let s1 := if s.flvPlayer then {s with flvLoaded := false} else s
  let s2 := if s1.hlsPlayer then {s1 with videoSrc := none, hlsLoadActive := false} else s1
  {s2 with loadingOverlay := false, offlineOverlay := true,
           recoveryAttempts := 0, offlinePoller := true}

/-- `commonPlayLogic` (src/src/LivePlayer.js:689), with the microtask
of the play promise collapsed into the call: the `finally` clears
`isLoading` and starts the latency monitor exactly when an FLV player
is active and live-edge seeking is enabled, clearing it otherwise. -/
def commonPlayLogic (env : PlayerEnv) (s : PlayerState) : PlayerState :=
  {s with isLoading := false,
          latencyChecker := decide (s.currentPlayerType = some PType.flv) && env.liveEdgeEnabled}

/-- `setupFlvPlayer` (src/src/LivePlayer.js:550), state effects only:
the redundant support check, then creation and loading of the flv.js
instance.  The error/metadata callbacks it registers are modelled
separately by `flvErrorHandler`. -/
def setupFlvPlayer (env : PlayerEnv) (s : PlayerState) : PlayerState :=
  if ¬env.flvSupported then displayError s
  else commonPlayLogic env {s with flvPlayer := true, flvLoaded := true}

/-- `setupHlsPlayer` (src/src/LivePlayer.js:617), state effects only:
native HLS sets the video source; otherwise hls.js is instantiated and
starts loading; otherwise an error is displayed.  The error callback it
registers is modelled separately by `hlsErrorHandler`. -/
def setupHlsPlayer (env : PlayerEnv) (s : PlayerState) (url : String) : PlayerState :=
  if env.nativeHls then commonPlayLogic env {s with videoSrc := some url}
  else if env.hlsJsSupported then
    commonPlayLogic env {s with hlsPlayer := true, hlsLoadActive := true}
  else displayError s

/-- The tail of `setupPlayer` after the fallback substitution decided
`urlToPlay` (src/src/LivePlayer.js:514-541): unified preparation and
cleanup, then dispatch on the final URL. -/
def setupPlayerCont (env : PlayerEnv) (s : PlayerState) (urlToPlay : String) : PlayerState :=
  let s1 := {s with isLoading := true, loadingOverlay := true, errorOverlay := false,
                    flvPlayer := false, flvLoaded := false,
                    hlsPlayer := false, hlsLoadActive := false,
                    videoSrc := none, currentUrl := some urlToPlay}
  if endsWithStr urlToPlay ".m3u8" then
    setupHlsPlayer env {s1 with currentPlayerType := some PType.hls} urlToPlay
  else if endsWithStr urlToPlay ".flv" then
    setupFlvPlayer env {s1 with currentPlayerType := some PType.flv}
  else
    {(displayError s1) with isLoading := false}

/-- `setupPlayer` (src/src/LivePlayer.js:475-541).  `userSelectedUrl`
is overwritten only when the reason does not end in `-recovery`; the
stale-content cache is reset on every call; an invalid (null or empty)
target displays an error; then the offline state is cleared, the
FLV-unsupported fallback is resolved, and the appropriate engine
adapter is invoked. -/
def setupPlayer (env : PlayerEnv) (s : PlayerState) (targetUrl : Option String)
    (reason : String) : PlayerState :=
  let s1 := if endsWithStr reason "-recovery" then s else {s with userSelectedUrl := targetUrl}
  let s2 := {s1 with lastKnownStaleContent := none}
  match targetUrl with
  | none => displayError s2
  | some url =>
    if url = "" then displayError s2
    else
      let s3 := clearOfflineState s2
      if endsWithStr url ".flv" ∧ ¬env.flvSupported then
        match (env.streamUrlList.find? (fun l => l.url = url)).bind (fun l => l.fallback) with
        | some fbUrl => setupPlayerCont env s3 fbUrl
        | none => displayError s3
      else setupPlayerCont env s3 url

/-- `start` (src/src/LivePlayer.js:184): resets the recovery counter
and sets up the first configured line, or displays an error when no
sources exist. -/
def startOp (env : PlayerEnv) (s : PlayerState) : PlayerState :=
  match env.streamUrlList with
  | [] => displayError s
  | line :: _ => setupPlayer env {s with recoveryAttempts := 0} (some line.url) "initial load"

/-- The refresh-button click handler (src/src/LivePlayer.js:331-336):
resets the recovery counter and re-runs setup for the current URL with
reason "refresh". -/
def refreshClick (env : PlayerEnv) (s : PlayerState) : PlayerState :=
  setupPlayer env {s with recoveryAttempts := 0} s.currentUrl "refresh"

/-- `switchLine` (src/src/LivePlayer.js:775-787): a no-op when the URL
is empty or already the user-selected line while not loading; otherwise
resets the recovery counter and runs a manual-switch setup. -/
def switchLineOp (env : PlayerEnv) (s : PlayerState) (newUrl lineName : String) : PlayerState :=
  if newUrl = "" ∨ (some newUrl = s.userSelectedUrl ∧ ¬s.isLoading) then s
  else setupPlayer env {s with recoveryAttempts := 0} (some newUrl)
        ("manual switch to " ++ lineName)

/-- `destroy` (src/src/LivePlayer.js:199-217): destroys both player
instances, stops the latency interval, clears the offline state and the
stall observation, and resets the recovery counter and player type. -/
def destroyOp (s : PlayerState) : PlayerState :=
  let s1 := {s with flvPlayer := false, flvLoaded := false,
                    hlsPlayer := false, hlsLoadActive := false, latencyChecker := false}
  let s2 := clearOfflineState s1
  let s3 := resetStallObservation s2
  {s3 with recoveryAttempts := 0, currentPlayerType := none}

/-- The video `playing` event handler (src/src/LivePlayer.js:394-413):
aborts while an investigation holds the lock; otherwise hides the
loading overlay, resets the recovery counter only when the FLV engine
is active, and resets the stall observation. -/
def playingEvent (s : PlayerState) : PlayerState :=
  if s.isObservingStall then s
  else
    let s1 := {s with loadingOverlay := false}
    let s2 := if s1.currentPlayerType = some PType.flv then {s1 with recoveryAttempts := 0} else s1
    resetStallObservation s2

/-- `handleStreamError` (src/src/LivePlayer.js:1131-1146): increments
the recovery counter, resets the stall observation, and either declares
the stream offline (at or above the threshold) or schedules a
reconnect setup after 1.5 s whose reason carries the `-recovery`
marker. -/
def handleStreamError (s : PlayerState) (reason : String) : PlayerState × Effects :=
  let s1 := resetStallObservation {s with recoveryAttempts := s.recoveryAttempts + 1}
  if s1.recoveryAttempts ≥ s1.maxRecoveryAttempts then
    (declareStreamOffline s1, { offl := 1 })
  else
    (s1, { sched := [(s1.currentUrl, reason ++ "-recovery")] })

/-- flv.js error taxonomy as dispatched by the handler. -/
inductive FlvErrKind
  | network
  | media
  | otherKind
deriving DecidableEq, Repr

/-- An flv.js error event: its type, detail string, and the HTTP status
carried by `errorInfo.code` when present. -/
structure FlvError where
  kind : FlvErrKind
  detail : String
  code : Option Nat
deriving DecidableEq, Repr

/-- The flv.js error callback (src/src/LivePlayer.js:571-601): only
network errors are handled; a 404 with zero recovery attempts takes the
immediate-offline fast path (manual UI update, unload, poller start);
every other network error goes to `handleStreamError`. -/
def flvErrorHandler (s : PlayerState) (e : FlvError) : PlayerState × Effects :=
  if e.kind = FlvErrKind.network then
    if e.code = some 404 ∧ s.recoveryAttempts = 0 then
      ({s with loadingOverlay := false, offlineOverlay := true,
               flvLoaded := false, offlinePoller := true}, {})
    else handleStreamError s ("flv-" ++ e.detail)
  else (s, {})

/-- An hls.js error event: its detail string, fatal flag, and the HTTP
status carried by `data.response?.code` when present. -/
structure HlsError where
  details : String
  fatal : Bool
  code : Option Nat
deriving DecidableEq, Repr

/-- The hls.js error callback (src/src/LivePlayer.js:636-675), in its
priority order: (1) manifest 404 on a fresh session takes the
immediate-offline fast path; (2) any error while `isObservingStall`
holds is ignored; (3) fatal errors escalate to `handleStreamError`;
(4) a buffer-stalled error acquires the lock and launches the
investigation; all other errors are ignored. -/
def hlsErrorHandler (s : PlayerState) (e : HlsError) : PlayerState × Effects :=
  if e.details = "manifestLoadError" ∧ e.code = some 404 ∧ s.recoveryAttempts = 0 then
    ({s with loadingOverlay := false, offlineOverlay := true,
             hlsLoadActive := false, offlinePoller := true}, {})
  else if s.isObservingStall then (s, {})
  else if e.fatal then handleStreamError s ("hls-fatal-" ++ e.details)
  else if e.details = "bufferStalledError" then
    ({s with isObservingStall := true}, { invStart := true })
  else (s, {})

/-- Verdict of the investigation loop: the stream proved healthy after
some number of fetch attempts, the playlist stayed stale (carrying the
raw content last stored), or an external event cleared the lock before
a check. -/
inductive InvVerdict
  | healthy (fetchesDone : Nat)
  | stale (cached : String) (fetchesDone : Nat)
  | cancelled (fetchesDone : Nat)
deriving DecidableEq, Repr

/-- The check loop of `investigateHlsFailure`
(src/src/LivePlayer.js:1059-1093).  `fetches` lists the outcome of each
check's fetch (`none` models a thrown network error or a non-ok
response); `cancel i` says whether the `isObservingStall` flag is
observed cleared at the start of check `i`; `last` is
`lastFetchedRawContent` (initially the empty string) and `done` counts
fetch attempts performed so far.  From the second check on, a fetched
playlist whose normalized content differs from the normalized previous
content ends the loop with a healthy verdict. -/
def invLoop (cancel : Nat → Bool) : List (Option String) → Nat → String → Nat → InvVerdict
  | [], _, last, done => .stale last done
  | r :: rest, i, last, done =>
    if cancel i then .cancelled done
    else
      match r with
      | some c =>
        if 1 < i ∧ normalizeM3u8Content (some c) ≠ normalizeM3u8Content (some last) then
          .healthy (done + 1)
        else invLoop cancel rest (i + 1) c (done + 1)
      | none => invLoop cancel rest (i + 1) last (done + 1)

/-- `investigateHlsFailure` (src/src/LivePlayer.js:1046-1111).
`hlsReady` models the initial guard on the hls.js instance and its
active level (its failure throws into the setup-failed path).  A
healthy verdict resets the recovery counter; a stale verdict caches the
raw content, forces the counter to the maximum, and escalates to
`handleStreamError`; a cancelled run applies no verdict.  The `finally`
block always releases the lock. -/
def investigateHlsFailure (s : PlayerState) (hlsReady : Bool) (cancel : Nat → Bool)
    (fetches : List (Option String)) : PlayerState × Effects :=
  if hlsReady then
    match invLoop cancel fetches 1 "" 0 with
    | .cancelled n => ({s with isObservingStall := false}, { fetchCount := n })
    | .healthy n =>
      ({s with recoveryAttempts := 0, isObservingStall := false}, { fetchCount := n })
    | .stale cached n =>
      let s1 := {s with lastKnownStaleContent := some cached,
                        recoveryAttempts := s.maxRecoveryAttempts}
      let p := handleStreamError s1 "hls-investigation-failed"
      ({p.1 with isObservingStall := false}, { p.2 with fetchCount := n })
  else
    let p := handleStreamError s "hls-investigation-setup-failed"
    ({p.1 with isObservingStall := false}, p.2)

/-- Splits a character stream at newline characters (the model of
JavaScript `split('\n')`, keeping empty pieces). -/
def splitNL : List Char → List (List Char)
  | [] => [[]]
  | c :: rest =>
    match splitNL rest with
    | [] => [[]]
    | l :: ls => if c = '\n' then [] :: l :: ls else (c :: l) :: ls

/-- Truthiness of `line.trim()`: the line has a non-whitespace
character. -/
def hasNonWs (l : List Char) : Bool := l.any (fun c => !c.isWhitespace)

/-- The basic master-playlist parser of the offline poller
(src/src/LivePlayer.js:980-981): the first line whose trim is truthy
and which does not start with a hash, returned untrimmed. -/
def firstMediaUri (master : String) : Option String :=
  ((splitNL master.data).find? (fun l => hasNonWs l && !(startsWithStr ⟨l⟩ "#"))).map
    (fun l => (⟨l⟩ : String))

/-- One tick of the offline poller armed by `handleOfflineState`
(src/src/LivePlayer.js:943-1022).  A missing or empty user-selected URL
stops the poller.  Non-HLS sources are probed with a HEAD request and
any ok response triggers revival.  HLS sources fetch the master
playlist, resolve and fetch the media playlist, and compare normalized
contents with the stale cache under JavaScript truthiness of the cache;
a stale match does nothing, anything else is revival (clear the offline
state and the cache, show the loading overlay, and re-run setup for the
user-selected URL).  Every fetch failure returns with no state change. -/
def pollTick (env : PlayerEnv) (net : NetEnv) (s : PlayerState) : PlayerState × Effects :=
  match s.userSelectedUrl with
  | none => (clearOfflineState s, {})
  | some m =>
    if m = "" then (clearOfflineState s, {})
    else if ¬endsWithStr m ".m3u8" then
      if net.headOk m then
        (setupPlayer env (clearOfflineState s) (some m) "offline-poll-success",
         { setups := [(m, "offline-poll-success")] })
      else (s, {})
    else
      match net.fetchGet m with
      | none => (s, {})
      | some masterContent =>
        match firstMediaUri masterContent with
        | none => (s, {})
        | some uri =>
          match net.fetchGet (net.resolve uri m) with
          | none => (s, {})
          | some mediaContent =>
            if strTruthy s.lastKnownStaleContent
                ∧ normalizeM3u8Content (some mediaContent)
                  = normalizeM3u8Content s.lastKnownStaleContent then
              (s, {})
            else
              let s1 := clearOfflineState s
              let s2 := {s1 with lastKnownStaleContent := none,
                                 loadingOverlay := true, offlineOverlay := false}
              (setupPlayer env s2 (some m) "offline-poll-success",
               { setups := [(m, "offline-poll-success")] })

/-- Folds a sequence of recovery-triggered setup calls over a state. -/
def applyRecoverySetups (env : PlayerEnv) (s : PlayerState)
    (calls : List (Option String × String)) : PlayerState :=
  calls.foldl (fun st p => setupPlayer env st p.1 p.2) s

/-- A structured playlist line, used to state what the normalizer does
to whole playlists: a segment reference (a path, optionally followed by
a query string) or any other line (comments, tags, blanks). -/
inductive PLine
  | seg (path : List Char) (query : Option (List Char))
  | raw (text : List Char)
deriving DecidableEq, Repr

/-- The text of a structured playlist line: a query string is attached
with the question-mark separator. -/
def renderLine : PLine → List Char
  | .seg p none => p
  | .seg p (some q) => p ++ '?' :: q
  | .raw t => t

/-- The query-stripped text of a structured playlist line. -/
def normalLine : PLine → List Char
  | .seg p _ => p
  | .raw t => t

/-- A chunk of text containing no line terminator. -/
def termFree (l : List Char) : Prop := ∀ c ∈ l, isLineTerm c = false

/-- Well-formedness of a structured playlist line: a segment path ends
in ".ts", holds no question mark and no line terminator, and its query
string holds no line terminator; any other line holds no line
terminator and no ".ts?" occurrence (it is fixed by `stripSegList`). -/
def lineOK : PLine → Prop
  | .seg p q => (['.', 't', 's'] <:+ p) ∧ '?' ∉ p ∧ termFree p ∧
      (match q with
       | none => True
       | some qq => termFree qq)
  | .raw t => stripSegList t = t ∧ termFree t

instance termFreeDecidable (l : List Char) : Decidable (termFree l) := by
  unfold termFree
  infer_instance

instance lineOKDecidable (ln : PLine) : Decidable (lineOK ln) :=
  match ln with
  | .seg p none => by unfold lineOK; infer_instance
  | .seg p (some qq) => by unfold lineOK; infer_instance
  | .raw t => by unfold lineOK; infer_instance

/-- Joins lines with the newline character. -/
def joinNL : List (List Char) → List Char
  | [] => []
  | [a] => a
  | a :: b :: rest => a ++ '\n' :: joinNL (b :: rest)

/-- The text of a structured playlist. -/
def renderPlaylist (pl : List PLine) : String := ⟨joinNL (pl.map renderLine)⟩

/-- Two structured playlist lines that differ at most in the query
string of a segment reference. -/
def queryOnlyEq : PLine → PLine → Prop
  | .seg p _, .seg p2 _ => p = p2
  | .raw t, .raw t2 => t = t2
  | _, _ => False

/-- A concrete hls.js playback state used by witnesses and
counterexamples: line one of `sampleEnv` is active and no failure has
been counted yet. -/
def sampleBase : PlayerState :=
  { currentUrl := some "http://h/m.m3u8", userSelectedUrl := some "http://h/m.m3u8",
    recoveryAttempts := 0, maxRecoveryAttempts := 3,
    isObservingStall := false, stallObserverTimer := false,
    lastKnownStaleContent := none, offlinePoller := false, latencyChecker := false,
    currentPlayerType := some PType.hls, flvPlayer := false, flvLoaded := false,
    hlsPlayer := true, hlsLoadActive := true, videoSrc := none,
    isLoading := false, loadingOverlay := true, offlineOverlay := false,
    errorOverlay := false }

/-- A concrete browser environment: hls.js available, no native HLS,
flv.js available, two configured lines. -/
def sampleEnv : PlayerEnv :=
  { flvSupported := true, nativeHls := false, hlsJsSupported := true,
    liveEdgeEnabled := false,
    streamUrlList :=
      [{ name := "L1", url := "http://h/m.m3u8", fallback := none },
       { name := "L2", url := "http://h/s.flv", fallback := some "http://h/s.m3u8" }] }

/-- A concrete network in which the master playlist of line one points
to a media playlist whose body is empty. -/
def emptyMediaNet : NetEnv :=
  { headOk := fun _ => false,
    fetchGet := fun u =>
      if u = "http://h/m.m3u8" then some "#EXTM3U\nmedia.m3u8\n"
      else if u = "http://h/media.m3u8" then some "" else none,
    resolve := fun uri base =>
      if uri = "media.m3u8" ∧ base = "http://h/m.m3u8" then "http://h/media.m3u8" else uri }

/-- A concrete network in which the media playlist of line one serves
the same segment as the cached snapshot, with a fresh query string. -/
def staleNet : NetEnv :=
  { headOk := fun _ => false,
    fetchGet := fun u =>
      if u = "http://h/m.m3u8" then some "#EXTM3U\nmedia.m3u8\n"
      else if u = "http://h/media.m3u8" then some "#EXTM3U\nseg1.ts?tok=2\n" else none,
    resolve := fun uri base =>
      if uri = "media.m3u8" ∧ base = "http://h/m.m3u8" then "http://h/media.m3u8" else uri }


/-- Concrete structured playlists used by witnesses: the same content
with a segment query string, without it, and with a different segment
path. -/
def plQuery1 : List PLine :=
  [PLine.raw "#EXTM3U".data, PLine.seg "seg1.ts".data (some "a=1".data)]

/-- `plQuery1` stripped of its query string. -/
def plQuery2 : List PLine :=
  [PLine.raw "#EXTM3U".data, PLine.seg "seg1.ts".data none]

/-- `plQuery1` with a different segment path and no query string. -/
def plPath3 : List PLine :=
  [PLine.raw "#EXTM3U".data, PLine.seg "seg2.ts".data none]

/-- A concrete network in which the media playlist of line one serves a
new segment. -/
def revivedNet : NetEnv :=
  { headOk := fun _ => false,
    fetchGet := fun u =>
      if u = "http://h/m.m3u8" then some "#EXTM3U\nmedia.m3u8\n"
      else if u = "http://h/media.m3u8" then some "#EXTM3U\nseg2.ts\n" else none,
    resolve := fun uri base =>
      if uri = "media.m3u8" ∧ base = "http://h/m.m3u8" then "http://h/media.m3u8" else uri }

end LivePlayer

namespace LivePlayer

/-! ### Helper lemmas shared by the claim theorems -/

lemma setupPlayer_frame (env : PlayerEnv) (s : PlayerState) (u : Option String) (r : String) :
    (setupPlayer env s u r).recoveryAttempts = s.recoveryAttempts ∧
    (setupPlayer env s u r).maxRecoveryAttempts = s.maxRecoveryAttempts ∧
    (setupPlayer env s u r).isObservingStall = s.isObservingStall ∧
    (setupPlayer env s u r).stallObserverTimer = s.stallObserverTimer ∧
    (setupPlayer env s u r).lastKnownStaleContent = none := by
  unfold setupPlayer setupPlayerCont setupHlsPlayer setupFlvPlayer commonPlayLogic
    displayError clearOfflineState
  rcases u with _ | url <;> simp <;> repeat' (split <;> try simp)

lemma setupPlayer_attempts (env : PlayerEnv) (s : PlayerState) (u : Option String)
    (r : String) : (setupPlayer env s u r).recoveryAttempts = s.recoveryAttempts :=
  (setupPlayer_frame env s u r).1

lemma setupPlayer_max (env : PlayerEnv) (s : PlayerState) (u : Option String)
    (r : String) : (setupPlayer env s u r).maxRecoveryAttempts = s.maxRecoveryAttempts :=
  (setupPlayer_frame env s u r).2.1

lemma setupPlayer_lock (env : PlayerEnv) (s : PlayerState) (u : Option String)
    (r : String) : (setupPlayer env s u r).isObservingStall = s.isObservingStall :=
  (setupPlayer_frame env s u r).2.2.1

lemma setupPlayer_userSel_recovery (env : PlayerEnv) (s : PlayerState) (u : Option String)
    (r : String) (h : endsWithStr r "-recovery" = true) :
    (setupPlayer env s u r).userSelectedUrl = s.userSelectedUrl := by
  unfold setupPlayer setupPlayerCont setupHlsPlayer setupFlvPlayer commonPlayLogic
    displayError clearOfflineState
  rcases u with _ | url <;> simp [h] <;> repeat' (split <;> try simp)

lemma setupPlayer_userSel_set (env : PlayerEnv) (s : PlayerState) (u : Option String)
    (r : String) (h : endsWithStr r "-recovery" = false) :
    (setupPlayer env s u r).userSelectedUrl = u := by
  unfold setupPlayer setupPlayerCont setupHlsPlayer setupFlvPlayer commonPlayLogic
    displayError clearOfflineState
  rcases u with _ | url <;> simp [h] <;> repeat' (split <;> try simp)

lemma setupPlayer_valid_poller (env : PlayerEnv) (s : PlayerState) (m : String)
    (r : String) (hm : m ≠ "") :
    (setupPlayer env s (some m) r).offlinePoller = false := by
  unfold setupPlayer setupPlayerCont setupHlsPlayer setupFlvPlayer commonPlayLogic
    displayError clearOfflineState
  simp [hm] <;> repeat' (split <;> try simp)

lemma endsWith_m3u8_ne_empty (m : String) (h : endsWithStr m ".m3u8" = true) : m ≠ "" := by
  intro he
  subst he
  exact absurd h (by decide)

lemma declareStreamOffline_attempts (s : PlayerState) :
    (declareStreamOffline s).recoveryAttempts = 0 := by
  unfold declareStreamOffline
  repeat' (split <;> try simp)

lemma declareStreamOffline_max (s : PlayerState) :
    (declareStreamOffline s).maxRecoveryAttempts = s.maxRecoveryAttempts := by
  unfold declareStreamOffline
  repeat' (split <;> try simp)

lemma declareStreamOffline_userSel (s : PlayerState) :
    (declareStreamOffline s).userSelectedUrl = s.userSelectedUrl := by
  unfold declareStreamOffline
  repeat' (split <;> try simp)

lemma declareStreamOffline_stale (s : PlayerState) :
    (declareStreamOffline s).lastKnownStaleContent = s.lastKnownStaleContent := by
  unfold declareStreamOffline
  repeat' (split <;> try simp)

lemma handleStreamError_attempts (s : PlayerState) (r : String)
    (h : s.recoveryAttempts ≤ s.maxRecoveryAttempts) :
    (handleStreamError s r).1.recoveryAttempts ≤
      (handleStreamError s r).1.maxRecoveryAttempts := by
  unfold handleStreamError resetStallObservation
  dsimp only
  split
  · simp [declareStreamOffline_attempts]
  · rename_i hlt
    simp only [not_le] at hlt
    simp
    omega

lemma handleStreamError_max (s : PlayerState) (r : String) :
    (handleStreamError s r).1.maxRecoveryAttempts = s.maxRecoveryAttempts := by
  unfold handleStreamError resetStallObservation
  dsimp only
  split
  · simp [declareStreamOffline_max]
  · simp

lemma handleStreamError_userSel (s : PlayerState) (r : String) :
    (handleStreamError s r).1.userSelectedUrl = s.userSelectedUrl := by
  unfold handleStreamError resetStallObservation
  dsimp only
  split
  · simp [declareStreamOffline_userSel]
  · simp

lemma handleStreamError_stale (s : PlayerState) (r : String) :
    (handleStreamError s r).1.lastKnownStaleContent = s.lastKnownStaleContent := by
  unfold handleStreamError resetStallObservation
  dsimp only
  split
  · simp [declareStreamOffline_stale]
  · simp

end LivePlayer

namespace LivePlayer

lemma playingEvent_attempts (s : PlayerState)
    (h : s.recoveryAttempts ≤ s.maxRecoveryAttempts) :
    (playingEvent s).recoveryAttempts ≤ (playingEvent s).maxRecoveryAttempts := by
  unfold playingEvent resetStallObservation
  dsimp only
  repeat' split
  all_goals simpa using h

lemma playingEvent_userSel (s : PlayerState) :
    (playingEvent s).userSelectedUrl = s.userSelectedUrl := by
  unfold playingEvent resetStallObservation
  dsimp only
  repeat' split
  all_goals simp

lemma flvErrorHandler_attempts (s : PlayerState) (e : FlvError)
    (h : s.recoveryAttempts ≤ s.maxRecoveryAttempts) :
    (flvErrorHandler s e).1.recoveryAttempts ≤ (flvErrorHandler s e).1.maxRecoveryAttempts := by
  unfold flvErrorHandler
  repeat' split
  all_goals first
    | exact handleStreamError_attempts _ _ h
    | simpa using h

lemma flvErrorHandler_userSel (s : PlayerState) (e : FlvError) :
    (flvErrorHandler s e).1.userSelectedUrl = s.userSelectedUrl := by
  unfold flvErrorHandler
  repeat' split
  all_goals first
    | exact handleStreamError_userSel _ _
    | simp

lemma hlsErrorHandler_attempts (s : PlayerState) (e : HlsError)
    (h : s.recoveryAttempts ≤ s.maxRecoveryAttempts) :
    (hlsErrorHandler s e).1.recoveryAttempts ≤ (hlsErrorHandler s e).1.maxRecoveryAttempts := by
  unfold hlsErrorHandler
  repeat' split
  all_goals first
    | exact handleStreamError_attempts _ _ h
    | simpa using h

lemma hlsErrorHandler_userSel (s : PlayerState) (e : HlsError) :
    (hlsErrorHandler s e).1.userSelectedUrl = s.userSelectedUrl := by
  unfold hlsErrorHandler
  repeat' split
  all_goals first
    | exact handleStreamError_userSel _ _
    | simp

lemma investigate_attempts (s : PlayerState) (hlsReady : Bool) (cancel : Nat → Bool)
    (f : List (Option String)) (h : s.recoveryAttempts ≤ s.maxRecoveryAttempts) :
    (investigateHlsFailure s hlsReady cancel f).1.recoveryAttempts ≤
      (investigateHlsFailure s hlsReady cancel f).1.maxRecoveryAttempts := by
  unfold investigateHlsFailure
  dsimp only
  split
  · split
    · simpa using h
    · simp
    · rename_i cached n heq
      have := handleStreamError_attempts
        {s with lastKnownStaleContent := some cached,
                recoveryAttempts := s.maxRecoveryAttempts} "hls-investigation-failed" (by simp)
      simpa using this
  · have := handleStreamError_attempts s "hls-investigation-setup-failed" h
    simpa using this

lemma investigate_userSel (s : PlayerState) (hlsReady : Bool) (cancel : Nat → Bool)
    (f : List (Option String)) :
    (investigateHlsFailure s hlsReady cancel f).1.userSelectedUrl = s.userSelectedUrl := by
  unfold investigateHlsFailure
  dsimp only
  split
  · split
    · simp
    · simp
    · rename_i cached n heq
      have := handleStreamError_userSel
        {s with lastKnownStaleContent := some cached,
                recoveryAttempts := s.maxRecoveryAttempts} "hls-investigation-failed"
      simpa using this
  · have := handleStreamError_userSel s "hls-investigation-setup-failed"
    simpa using this

lemma pollTick_attempts (env : PlayerEnv) (net : NetEnv) (s : PlayerState)
    (h : s.recoveryAttempts ≤ s.maxRecoveryAttempts) :
    (pollTick env net s).1.recoveryAttempts ≤ (pollTick env net s).1.maxRecoveryAttempts := by
  unfold pollTick
  dsimp only
  repeat' split
  all_goals
    simp only [setupPlayer_attempts, setupPlayer_max, clearOfflineState]
  all_goals simpa using h

lemma pollTick_userSel (env : PlayerEnv) (net : NetEnv) (s : PlayerState) :
    (pollTick env net s).1.userSelectedUrl = s.userSelectedUrl := by
  unfold pollTick
  dsimp only
  split
  · simp [clearOfflineState]
  · rename_i m heq
    repeat' split
    all_goals
      first
        | (rw [setupPlayer_userSel_set _ _ _ _ (by decide)]; exact heq.symm)
        | (simp [clearOfflineState]; done)
        | rfl

end LivePlayer

namespace LivePlayer

lemma handleStreamError_forced (s : PlayerState) (r : String)
    (h : s.recoveryAttempts ≥ s.maxRecoveryAttempts) :
    (handleStreamError s r).2.offl = 1 ∧ (handleStreamError s r).2.sched = [] := by
  unfold handleStreamError resetStallObservation
  dsimp only
  rw [if_pos (by simp; omega)]
  exact ⟨rfl, rfl⟩

/-- C1 (counterexample): while the investigation lock is held, an error
signal of kind manifest-load-error with HTTP status 404 arriving on a
session with zero recovery attempts is NOT ignored: the handler mutates
the state and starts the offline poller. -/
theorem c1_counterexample :
    ({sampleBase with isObservingStall := true} : PlayerState).isObservingStall = true ∧
    ({sampleBase with isObservingStall := true} : PlayerState).recoveryAttempts = 0 ∧
    (hlsErrorHandler {sampleBase with isObservingStall := true}
        { details := "manifestLoadError", fatal := false, code := some 404 }).1 ≠
      {sampleBase with isObservingStall := true} ∧
    (hlsErrorHandler {sampleBase with isObservingStall := true}
        { details := "manifestLoadError", fatal := false, code := some 404 }).1.offlinePoller
      = true := by decide

/-- C1 (amended): while the investigation lock is held, every error
signal other than the initial-404 fast path (manifest-load-error with
status 404 and zero recovery attempts, which is checked before the
lock) is ignored: the handler performs no state change, schedules no
recovery, declares no offline, and starts no second investigation. -/
theorem c1_lock_suppression (s : PlayerState) (e : HlsError)
    (hlock : s.isObservingStall = true)
    (hnot : ¬(e.details = "manifestLoadError" ∧ e.code = some 404 ∧ s.recoveryAttempts = 0)) :
    hlsErrorHandler s e = (s, {}) := by
  unfold hlsErrorHandler
  rw [if_neg hnot, if_pos hlock]

theorem c1_lock_suppression_witness :
    ({sampleBase with isObservingStall := true} : PlayerState).isObservingStall = true ∧
    hlsErrorHandler {sampleBase with isObservingStall := true}
        { details := "bufferStalledError", fatal := false, code := none } =
      ({sampleBase with isObservingStall := true}, {}) :=
  ⟨by decide,
   c1_lock_suppression {sampleBase with isObservingStall := true}
     { details := "bufferStalledError", fatal := false, code := none }
     (by decide) (by decide)⟩

/-- C2 (counterexample): a manual refresh issued while the
investigation lock is held does not clear the lock, so a new setup call
does not cancel a mid-sequence investigation. -/
theorem c2_counterexample :
    ({sampleBase with isObservingStall := true} : PlayerState).isObservingStall = true ∧
    (refreshClick sampleEnv {sampleBase with isObservingStall := true}).isObservingStall
      = true := by decide

/-- C2 (amended): `destroy()` synchronously clears the investigation
lock, the stall timer, the offline poller, the latency interval and the
recovery counter; a mid-sequence investigation that observes the
cleared lock before its second or third check aborts, keeping only the
fetches already performed and applying no verdict (no counter change,
no stale-cache write, no offline declaration, no scheduled reconnect);
a new setup call leaves the `isObservingStall` lock unchanged (so it
does not cancel a mid-sequence investigation) while it does clear the
offline-poll timer and the stale-content cache; and a manual refresh
starts the fresh session with `recoveryAttempts` equal to 0. -/
theorem c2_cancellation (env : PlayerEnv) (s : PlayerState) (u : Option String) (m r : String)
    (cancel2 cancel3 : Nat → Bool) (r1 r2 r3 : Option String) (hm : m ≠ "") :
    ((destroyOp s).isObservingStall = false ∧ (destroyOp s).stallObserverTimer = false ∧
      (destroyOp s).offlinePoller = false ∧ (destroyOp s).latencyChecker = false ∧
      (destroyOp s).recoveryAttempts = 0) ∧
    (cancel2 1 = false → cancel2 2 = true →
      investigateHlsFailure s true cancel2 [r1, r2, r3] =
        ({s with isObservingStall := false}, { fetchCount := 1 })) ∧
    (cancel3 1 = false → cancel3 2 = false → cancel3 3 = true →
      (∀ c2, r2 = some c2 →
        normalizeM3u8Content (some c2) = normalizeM3u8Content (some (r1.getD ""))) →
      investigateHlsFailure s true cancel3 [r1, r2, r3] =
        ({s with isObservingStall := false}, { fetchCount := 2 })) ∧
    (setupPlayer env s u r).isObservingStall = s.isObservingStall ∧
    (setupPlayer env s u r).lastKnownStaleContent = none ∧
    (setupPlayer env s (some m) r).offlinePoller = false ∧
    (refreshClick env s).recoveryAttempts = 0 := by
  refine ⟨by simp [destroyOp, clearOfflineState, resetStallObservation], ?_, ?_,
    setupPlayer_lock env s u r, (setupPlayer_frame env s u r).2.2.2.2,
    setupPlayer_valid_poller env s m r hm, ?_⟩
  · intro h1 h2
    rcases r1 with _ | c1
    · unfold investigateHlsFailure
      simp [invLoop, h1, h2]
    · unfold investigateHlsFailure
      simp [invLoop, h1, h2]
  · intro h1 h2 h3 hstale
    rcases r1 with _ | c1 <;> rcases r2 with _ | c2
    · unfold investigateHlsFailure
      simp [invLoop, h1, h2, h3]
    · have hs := hstale c2 rfl
      simp only [Option.getD_none] at hs
      unfold investigateHlsFailure
      simp [invLoop, h1, h2, h3, hs]
    · unfold investigateHlsFailure
      simp [invLoop, h1, h2, h3]
    · have hs := hstale c2 rfl
      simp only [Option.getD_some] at hs
      unfold investigateHlsFailure
      simp [invLoop, h1, h2, h3, hs]
  · unfold refreshClick
    rw [setupPlayer_attempts]

theorem c2_cancellation_witness :
    ("http://h/m.m3u8" : String) ≠ "" ∧
    ((destroyOp {sampleBase with isObservingStall := true}).isObservingStall = false ∧
      (destroyOp {sampleBase with isObservingStall := true}).stallObserverTimer = false ∧
      (destroyOp {sampleBase with isObservingStall := true}).offlinePoller = false ∧
      (destroyOp {sampleBase with isObservingStall := true}).latencyChecker = false ∧
      (destroyOp {sampleBase with isObservingStall := true}).recoveryAttempts = 0) ∧
    investigateHlsFailure {sampleBase with isObservingStall := true} true
        (fun i => decide (2 ≤ i))
        [some "#EXTM3U\nseg1.ts?a=1\n", some "#EXTM3U\nseg1.ts?a=2\n", none] =
      ({{sampleBase with isObservingStall := true} with isObservingStall := false},
        { fetchCount := 1 }) ∧
    investigateHlsFailure {sampleBase with isObservingStall := true} true
        (fun i => decide (3 ≤ i))
        [some "#EXTM3U\nseg1.ts?a=1\n", some "#EXTM3U\nseg1.ts?a=2\n", none] =
      ({{sampleBase with isObservingStall := true} with isObservingStall := false},
        { fetchCount := 2 }) ∧
    (setupPlayer sampleEnv {sampleBase with isObservingStall := true}
        (some "http://h/m.m3u8") "refresh").isObservingStall =
      ({sampleBase with isObservingStall := true} : PlayerState).isObservingStall ∧
    (setupPlayer sampleEnv {sampleBase with isObservingStall := true}
        (some "http://h/m.m3u8") "refresh").lastKnownStaleContent = none ∧
    (setupPlayer sampleEnv {sampleBase with isObservingStall := true}
        (some "http://h/m.m3u8") "refresh").offlinePoller = false ∧
    (refreshClick sampleEnv {sampleBase with isObservingStall := true}).recoveryAttempts
      = 0 := by
  have h := c2_cancellation sampleEnv {sampleBase with isObservingStall := true}
    (some "http://h/m.m3u8") "http://h/m.m3u8" "refresh"
    (fun i => decide (2 ≤ i)) (fun i => decide (3 ≤ i))
    (some "#EXTM3U\nseg1.ts?a=1\n") (some "#EXTM3U\nseg1.ts?a=2\n") none (by decide)
  exact ⟨by decide, h.1, h.2.1 (by decide) (by decide),
    h.2.2.1 (by decide) (by decide) (by decide)
      (fun c2 hc2 => by
        injection hc2 with hh
        subst hh
        decide),
    h.2.2.2.1, h.2.2.2.2.1, h.2.2.2.2.2.1, h.2.2.2.2.2.2⟩

/-- C3: when the playlist fetched on check two differs after
normalization from the playlist fetched on check one, the investigation
declares the stream healthy: it resets `recoveryAttempts` to 0,
releases the lock, performs exactly two fetches (no third fetch), and
produces no scheduled reconnect, no offline declaration and no other
state change. -/
theorem c3_healthy_on_difference (s : PlayerState) (c1 c2 : String) (r3 : Option String)
    (hdiff : normalizeM3u8Content (some c2) ≠ normalizeM3u8Content (some c1)) :
    investigateHlsFailure s true (fun _ => false) [some c1, some c2, r3] =
      ({s with recoveryAttempts := 0, isObservingStall := false}, { fetchCount := 2 }) := by
  unfold investigateHlsFailure
  simp [invLoop, hdiff]

theorem c3_healthy_on_difference_witness :
    normalizeM3u8Content (some "#EXTM3U\nseg2.ts\n") ≠
      normalizeM3u8Content (some "#EXTM3U\nseg1.ts\n") ∧
    investigateHlsFailure sampleBase true (fun _ => false)
        [some "#EXTM3U\nseg1.ts\n", some "#EXTM3U\nseg2.ts\n", none] =
      ({sampleBase with recoveryAttempts := 0, isObservingStall := false},
        { fetchCount := 2 }) :=
  ⟨by decide,
   c3_healthy_on_difference sampleBase "#EXTM3U\nseg1.ts\n" "#EXTM3U\nseg2.ts\n" none
     (by decide)⟩

/-- C4: when the three investigation fetches yield normalized-identical
playlists (or all three fail), the investigation fails: the raw content
last fetched (the empty string when nothing was fetched) is cached into
`lastKnownStaleContent`, the run factors through `handleStreamError`
applied to a state whose `recoveryAttempts` has already been forced to
`maxRecoveryAttempts`, and the offline procedure is invoked exactly
once. -/
theorem c4_stale_investigation_offline (s : PlayerState) (f : List (Option String))
    (h : (∃ c1 c2 c3, f = [some c1, some c2, some c3] ∧
            normalizeM3u8Content (some c2) = normalizeM3u8Content (some c1) ∧
            normalizeM3u8Content (some c3) = normalizeM3u8Content (some c2)) ∨
          f = [none, none, none]) :
    ∃ cached : String,
      (∀ c1 c2 c3, f = [some c1, some c2, some c3] → cached = c3) ∧
      (f = [none, none, none] → cached = "") ∧
      (investigateHlsFailure s true (fun _ => false) f).1.lastKnownStaleContent
        = some cached ∧
      (investigateHlsFailure s true (fun _ => false) f).2.offl = 1 ∧
      investigateHlsFailure s true (fun _ => false) f =
        (let sMid := {s with lastKnownStaleContent := some cached,
                             recoveryAttempts := s.maxRecoveryAttempts}
         let p := handleStreamError sMid "hls-investigation-failed"
         ({p.1 with isObservingStall := false}, {p.2 with fetchCount := 3})) := by
  have hforced : ∀ cached : String,
      (handleStreamError
        {s with lastKnownStaleContent := some cached, recoveryAttempts := s.maxRecoveryAttempts}
        "hls-investigation-failed").2.offl = 1 :=
    fun cached => (handleStreamError_forced _ _ (by simp)).1
  have hstale : ∀ cached : String,
      (handleStreamError
        {s with lastKnownStaleContent := some cached, recoveryAttempts := s.maxRecoveryAttempts}
        "hls-investigation-failed").1.lastKnownStaleContent = some cached := by
    intro cached
    rw [handleStreamError_stale]
  rcases h with ⟨c1, c2, c3, rfl, h1, h2⟩ | rfl
  · refine ⟨c3, ?_, ?_, ?_, ?_, ?_⟩
    · intro a b c hl
      injection hl with e1 hl
      injection hl with e2 hl
      injection hl with e3 hl
      exact Option.some.inj e3
    · intro hl
      simp at hl
    · unfold investigateHlsFailure
      simp [invLoop, h1, h2, hstale c3]
    · unfold investigateHlsFailure
      simp [invLoop, h1, h2, hforced c3]
    · unfold investigateHlsFailure
      simp [invLoop, h1, h2]
  · refine ⟨"", ?_, ?_, ?_, ?_, ?_⟩
    · intro a b c hl
      simp at hl
    · intro _
      rfl
    · unfold investigateHlsFailure
      simp [invLoop, hstale ""]
    · unfold investigateHlsFailure
      simp [invLoop, hforced ""]
    · unfold investigateHlsFailure
      simp [invLoop]

theorem c4_stale_investigation_offline_witness :
    normalizeM3u8Content (some "#EXTM3U\nseg1.ts?a=2\n") =
      normalizeM3u8Content (some "#EXTM3U\nseg1.ts?a=1\n") ∧
    ∃ cached : String,
      (∀ c1 c2 c3,
          ([some "#EXTM3U\nseg1.ts?a=1\n", some "#EXTM3U\nseg1.ts?a=2\n",
            some "#EXTM3U\nseg1.ts?a=3\n"] : List (Option String))
            = [some c1, some c2, some c3] → cached = c3) ∧
      (([some "#EXTM3U\nseg1.ts?a=1\n", some "#EXTM3U\nseg1.ts?a=2\n",
          some "#EXTM3U\nseg1.ts?a=3\n"] : List (Option String))
          = [none, none, none] → cached = "") ∧
      (investigateHlsFailure sampleBase true (fun _ => false)
          [some "#EXTM3U\nseg1.ts?a=1\n", some "#EXTM3U\nseg1.ts?a=2\n",
           some "#EXTM3U\nseg1.ts?a=3\n"]).1.lastKnownStaleContent = some cached ∧
      (investigateHlsFailure sampleBase true (fun _ => false)
          [some "#EXTM3U\nseg1.ts?a=1\n", some "#EXTM3U\nseg1.ts?a=2\n",
           some "#EXTM3U\nseg1.ts?a=3\n"]).2.offl = 1 ∧
      investigateHlsFailure sampleBase true (fun _ => false)
          [some "#EXTM3U\nseg1.ts?a=1\n", some "#EXTM3U\nseg1.ts?a=2\n",
           some "#EXTM3U\nseg1.ts?a=3\n"] =
        (let sMid :=
           {sampleBase with lastKnownStaleContent := some cached,
                            recoveryAttempts := sampleBase.maxRecoveryAttempts}
         let p := handleStreamError sMid "hls-investigation-failed"
         ({p.1 with isObservingStall := false}, {p.2 with fetchCount := 3})) :=
  ⟨by decide,
   c4_stale_investigation_offline sampleBase
     [some "#EXTM3U\nseg1.ts?a=1\n", some "#EXTM3U\nseg1.ts?a=2\n",
      some "#EXTM3U\nseg1.ts?a=3\n"]
     (Or.inl ⟨"#EXTM3U\nseg1.ts?a=1\n", "#EXTM3U\nseg1.ts?a=2\n",
       "#EXTM3U\nseg1.ts?a=3\n", rfl, by decide, by decide⟩)⟩

/-- C9: a resource-not-found failure (HTTP 404) arriving when
`recoveryAttempts` is 0 takes the immediate-offline fast path on both
engines: the offline overlay is shown, the loading overlay hidden, the
decoder stopped, and the offline poller started, with the recovery
counter untouched (still 0) and no `handleStreamError` invocation (no
scheduled reconnect, no offline-procedure call, empty effects). -/
theorem c9_immediate_offline (s : PlayerState) (ef : FlvError) (eh : HlsError)
    (hf : ef.kind = FlvErrKind.network ∧ ef.code = some 404)
    (hh : eh.details = "manifestLoadError" ∧ eh.code = some 404)
    (h0 : s.recoveryAttempts = 0) :
    flvErrorHandler s ef =
      ({s with loadingOverlay := false, offlineOverlay := true,
               flvLoaded := false, offlinePoller := true}, {}) ∧
    hlsErrorHandler s eh =
      ({s with loadingOverlay := false, offlineOverlay := true,
               hlsLoadActive := false, offlinePoller := true}, {}) := by
  obtain ⟨hf1, hf2⟩ := hf
  obtain ⟨hh1, hh2⟩ := hh
  constructor
  · unfold flvErrorHandler
    rw [if_pos hf1, if_pos ⟨hf2, h0⟩]
  · unfold hlsErrorHandler
    rw [if_pos ⟨hh1, hh2, h0⟩]

theorem c9_immediate_offline_witness :
    (({ kind := FlvErrKind.network, detail := "Exception", code := some 404 } : FlvError).kind
        = FlvErrKind.network) ∧
    sampleBase.recoveryAttempts = 0 ∧
    flvErrorHandler sampleBase
        { kind := FlvErrKind.network, detail := "Exception", code := some 404 } =
      ({sampleBase with loadingOverlay := false, offlineOverlay := true,
                        flvLoaded := false, offlinePoller := true}, {}) ∧
    hlsErrorHandler sampleBase
        { details := "manifestLoadError", fatal := true, code := some 404 } =
      ({sampleBase with loadingOverlay := false, offlineOverlay := true,
                        hlsLoadActive := false, offlinePoller := true}, {}) :=
  ⟨by decide, by decide,
   (c9_immediate_offline sampleBase
     { kind := FlvErrKind.network, detail := "Exception", code := some 404 }
     { details := "manifestLoadError", fatal := true, code := some 404 }
     ⟨by decide, by decide⟩ ⟨by decide, by decide⟩ (by decide)).1,
   (c9_immediate_offline sampleBase
     { kind := FlvErrKind.network, detail := "Exception", code := some 404 }
     { details := "manifestLoadError", fatal := true, code := some 404 }
     ⟨by decide, by decide⟩ ⟨by decide, by decide⟩ (by decide)).2⟩

end LivePlayer

namespace LivePlayer

lemma applyRecoverySetups_userSel (env : PlayerEnv) (calls : List (Option String × String))
    (hcalls : ∀ p ∈ calls, endsWithStr p.2 "-recovery" = true) :
    ∀ s : PlayerState, (applyRecoverySetups env s calls).userSelectedUrl = s.userSelectedUrl := by
  induction calls with
  | nil => intro s; rfl
  | cons p rest ih =>
    intro s
    have hp := hcalls p (List.mem_cons_self p rest)
    have hrest := fun q hq => hcalls q (List.mem_cons_of_mem p hq)
    show (applyRecoverySetups env (setupPlayer env s p.1 p.2) rest).userSelectedUrl = _
    rw [ih hrest, setupPlayer_userSel_recovery _ _ _ _ hp]

/-- C6: the recovery counter stays a natural number bounded by the
configured maximum across every modelled operation: setup, start,
refresh, line switch, destroy, the playing event, both decoder error
handlers, the unified stream-error handler (whose increment either
stays below the maximum or resets to 0 on the offline transition), the
offline declaration, the stall investigation (including its forcing of
the counter to the maximum) and the offline-poller tick. -/
theorem c6_recovery_counter_invariant (env : PlayerEnv) (net : NetEnv) (s : PlayerState)
    (u : Option String) (r lineName newUrl : String) (ef : FlvError) (eh : HlsError)
    (hlsReady : Bool) (cancel : Nat → Bool) (f : List (Option String))
    (h : s.recoveryAttempts ≤ s.maxRecoveryAttempts) :
    (setupPlayer env s u r).recoveryAttempts ≤ (setupPlayer env s u r).maxRecoveryAttempts ∧
    (startOp env s).recoveryAttempts ≤ (startOp env s).maxRecoveryAttempts ∧
    (refreshClick env s).recoveryAttempts ≤ (refreshClick env s).maxRecoveryAttempts ∧
    (switchLineOp env s newUrl lineName).recoveryAttempts ≤
      (switchLineOp env s newUrl lineName).maxRecoveryAttempts ∧
    (destroyOp s).recoveryAttempts ≤ (destroyOp s).maxRecoveryAttempts ∧
    (playingEvent s).recoveryAttempts ≤ (playingEvent s).maxRecoveryAttempts ∧
    (flvErrorHandler s ef).1.recoveryAttempts ≤ (flvErrorHandler s ef).1.maxRecoveryAttempts ∧
    (hlsErrorHandler s eh).1.recoveryAttempts ≤ (hlsErrorHandler s eh).1.maxRecoveryAttempts ∧
    (handleStreamError s r).1.recoveryAttempts ≤
      (handleStreamError s r).1.maxRecoveryAttempts ∧
    (declareStreamOffline s).recoveryAttempts ≤ (declareStreamOffline s).maxRecoveryAttempts ∧
    (investigateHlsFailure s hlsReady cancel f).1.recoveryAttempts ≤
      (investigateHlsFailure s hlsReady cancel f).1.maxRecoveryAttempts ∧
    (pollTick env net s).1.recoveryAttempts ≤ (pollTick env net s).1.maxRecoveryAttempts := by
  refine ⟨?_, ?_, ?_, ?_, ?_, playingEvent_attempts s h, flvErrorHandler_attempts s ef h,
    hlsErrorHandler_attempts s eh h, handleStreamError_attempts s r h, ?_,
    investigate_attempts s hlsReady cancel f h, pollTick_attempts env net s h⟩
  · rw [setupPlayer_attempts, setupPlayer_max]
    exact h
  · unfold startOp
    split
    · simpa [displayError] using h
    · simp [setupPlayer_attempts, setupPlayer_max]
  · unfold refreshClick
    simp [setupPlayer_attempts, setupPlayer_max]
  · unfold switchLineOp
    split
    · exact h
    · simp [setupPlayer_attempts, setupPlayer_max]
  · simp [destroyOp, clearOfflineState, resetStallObservation]
  · simp [declareStreamOffline_attempts]

theorem c6_recovery_counter_invariant_witness :
    ({sampleBase with recoveryAttempts := 2} : PlayerState).recoveryAttempts ≤
      ({sampleBase with recoveryAttempts := 2} : PlayerState).maxRecoveryAttempts ∧
    (handleStreamError {sampleBase with recoveryAttempts := 2} "hls-fatal-x").1.recoveryAttempts ≤
      (handleStreamError {sampleBase with recoveryAttempts := 2} "hls-fatal-x").1.maxRecoveryAttempts ∧
    (investigateHlsFailure {sampleBase with recoveryAttempts := 2} true (fun _ => false)
        [none, none, none]).1.recoveryAttempts ≤
      (investigateHlsFailure {sampleBase with recoveryAttempts := 2} true (fun _ => false)
        [none, none, none]).1.maxRecoveryAttempts :=
  ⟨by decide,
   (c6_recovery_counter_invariant sampleEnv emptyMediaNet
      {sampleBase with recoveryAttempts := 2} (some "http://h/m.m3u8") "hls-fatal-x" "L2"
      "http://h/s.flv" { kind := FlvErrKind.network, detail := "Exception", code := none }
      { details := "bufferStalledError", fatal := false, code := none } true (fun _ => false)
      [none, none, none] (by decide)).2.2.2.2.2.2.2.2.1,
   (c6_recovery_counter_invariant sampleEnv emptyMediaNet
      {sampleBase with recoveryAttempts := 2} (some "http://h/m.m3u8") "hls-fatal-x" "L2"
      "http://h/s.flv" { kind := FlvErrKind.network, detail := "Exception", code := none }
      { details := "bufferStalledError", fatal := false, code := none } true (fun _ => false)
      [none, none, none] (by decide)).2.2.2.2.2.2.2.2.2.2.1⟩

/-- C7 (counterexample): a successful playing signal while the HLS
engine is active does not reset the recovery counter. -/
theorem c7_counterexample :
    ({sampleBase with recoveryAttempts := 2} : PlayerState).currentPlayerType
      = some PType.hls ∧
    ({sampleBase with recoveryAttempts := 2} : PlayerState).isObservingStall = false ∧
    (playingEvent {sampleBase with recoveryAttempts := 2}).recoveryAttempts = 2 := by decide

/-- C7 (amended): a playing signal resets `recoveryAttempts` to 0 only
when the FLV engine is active and no investigation holds the lock; with
the HLS engine active it leaves the counter unchanged, and while the
lock is held it changes nothing at all.  Every user-initiated setup
(start with configured sources, manual refresh, an actual manual line
switch) resets the counter to 0. -/
theorem c7_playing_reset (env : PlayerEnv) (s : PlayerState) (newUrl lineName : String)
    (hstart : env.streamUrlList ≠ [])
    (hswitch : ¬(newUrl = "" ∨ (some newUrl = s.userSelectedUrl ∧ ¬s.isLoading))) :
    (s.isObservingStall = false → s.currentPlayerType = some PType.flv →
      (playingEvent s).recoveryAttempts = 0) ∧
    (s.isObservingStall = false → s.currentPlayerType ≠ some PType.flv →
      (playingEvent s).recoveryAttempts = s.recoveryAttempts) ∧
    (s.isObservingStall = true → playingEvent s = s) ∧
    (startOp env s).recoveryAttempts = 0 ∧
    (refreshClick env s).recoveryAttempts = 0 ∧
    (switchLineOp env s newUrl lineName).recoveryAttempts = 0 := by
  refine ⟨?_, ?_, ?_, ?_, ?_, ?_⟩
  · intro hlock htype
    simp [playingEvent, resetStallObservation, hlock, htype]
  · intro hlock htype
    simp [playingEvent, resetStallObservation, hlock, htype]
  · intro hlock
    simp [playingEvent, hlock]
  · unfold startOp
    split
    · exact absurd (by assumption) hstart
    · simp [setupPlayer_attempts]
  · unfold refreshClick
    simp [setupPlayer_attempts]
  · unfold switchLineOp
    rw [if_neg hswitch]
    simp [setupPlayer_attempts]

theorem c7_playing_reset_witness :
    sampleEnv.streamUrlList ≠ [] ∧
    (({sampleBase with currentPlayerType := some PType.flv, recoveryAttempts := 2} : PlayerState).isObservingStall = false →
      ({sampleBase with currentPlayerType := some PType.flv, recoveryAttempts := 2} : PlayerState).currentPlayerType = some PType.flv →
      (playingEvent {sampleBase with currentPlayerType := some PType.flv, recoveryAttempts := 2}).recoveryAttempts = 0) ∧
    (startOp sampleEnv {sampleBase with currentPlayerType := some PType.flv, recoveryAttempts := 2}).recoveryAttempts = 0 ∧
    (switchLineOp sampleEnv {sampleBase with currentPlayerType := some PType.flv, recoveryAttempts := 2} "http://h/s.flv" "L2").recoveryAttempts = 0 :=
  ⟨by decide,
   (c7_playing_reset sampleEnv
      {sampleBase with currentPlayerType := some PType.flv, recoveryAttempts := 2}
      "http://h/s.flv" "L2" (by decide) (by decide)).1,
   (c7_playing_reset sampleEnv
      {sampleBase with currentPlayerType := some PType.flv, recoveryAttempts := 2}
      "http://h/s.flv" "L2" (by decide) (by decide)).2.2.2.1,
   (c7_playing_reset sampleEnv
      {sampleBase with currentPlayerType := some PType.flv, recoveryAttempts := 2}
      "http://h/s.flv" "L2" (by decide) (by decide)).2.2.2.2.2⟩

/-- C8: `userSelectedUrl` is unchanged by any sequence of
recovery-triggered setups (reason ending in the `-recovery` marker) and
by every non-user-initiated operation: the playing event, destroy, the
stream-error handler, the offline declaration, both decoder error
handlers, the stall investigation, and the offline-poller tick (whose
revival setup re-targets the same user-selected URL). -/
theorem c8_userSelectedUrl_frame (env : PlayerEnv) (net : NetEnv) (s : PlayerState)
    (calls : List (Option String × String)) (r : String) (ef : FlvError) (eh : HlsError)
    (hlsReady : Bool) (cancel : Nat → Bool) (f : List (Option String))
    (hcalls : ∀ p ∈ calls, endsWithStr p.2 "-recovery" = true) :
    (applyRecoverySetups env s calls).userSelectedUrl = s.userSelectedUrl ∧
    (playingEvent s).userSelectedUrl = s.userSelectedUrl ∧
    (destroyOp s).userSelectedUrl = s.userSelectedUrl ∧
    (handleStreamError s r).1.userSelectedUrl = s.userSelectedUrl ∧
    (declareStreamOffline s).userSelectedUrl = s.userSelectedUrl ∧
    (flvErrorHandler s ef).1.userSelectedUrl = s.userSelectedUrl ∧
    (hlsErrorHandler s eh).1.userSelectedUrl = s.userSelectedUrl ∧
    (investigateHlsFailure s hlsReady cancel f).1.userSelectedUrl = s.userSelectedUrl ∧
    (pollTick env net s).1.userSelectedUrl = s.userSelectedUrl :=
  ⟨applyRecoverySetups_userSel env calls hcalls s, playingEvent_userSel s,
   by simp [destroyOp, clearOfflineState, resetStallObservation],
   handleStreamError_userSel s r, declareStreamOffline_userSel s,
   flvErrorHandler_userSel s ef, hlsErrorHandler_userSel s eh,
   investigate_userSel s hlsReady cancel f, pollTick_userSel env net s⟩

theorem c8_userSelectedUrl_frame_witness :
    (∀ p ∈ ([(some "http://h/m.m3u8", "hls-fatal-levelLoadTimeOut-recovery"),
             (some "http://h/m.m3u8", "flv-NetworkError-recovery")] :
        List (Option String × String)), endsWithStr p.2 "-recovery" = true) ∧
    (applyRecoverySetups sampleEnv sampleBase
        [(some "http://h/m.m3u8", "hls-fatal-levelLoadTimeOut-recovery"),
         (some "http://h/m.m3u8", "flv-NetworkError-recovery")]).userSelectedUrl =
      sampleBase.userSelectedUrl ∧
    (pollTick sampleEnv revivedNet sampleBase).1.userSelectedUrl =
      sampleBase.userSelectedUrl :=
  ⟨by decide,
   (c8_userSelectedUrl_frame sampleEnv revivedNet sampleBase
      [(some "http://h/m.m3u8", "hls-fatal-levelLoadTimeOut-recovery"),
       (some "http://h/m.m3u8", "flv-NetworkError-recovery")] "x"
      { kind := FlvErrKind.network, detail := "Exception", code := none }
      { details := "bufferStalledError", fatal := false, code := none } true
      (fun _ => false) [] (by decide)).1,
   (c8_userSelectedUrl_frame sampleEnv revivedNet sampleBase
      [(some "http://h/m.m3u8", "hls-fatal-levelLoadTimeOut-recovery"),
       (some "http://h/m.m3u8", "flv-NetworkError-recovery")] "x"
      { kind := FlvErrKind.network, detail := "Exception", code := none }
      { details := "bufferStalledError", fatal := false, code := none } true
      (fun _ => false) [] (by decide)).2.2.2.2.2.2.2.2⟩

end LivePlayer

namespace LivePlayer

/-- C5 (counterexample): after an investigation in which every fetch
failed, the stale cache holds the empty string; on the next poller tick
the freshly fetched empty media playlist has normalized content
identical to the normalized cached snapshot, and yet revival is
declared (a setup is re-run and the poller state mutated), because the
empty cached string is falsy. -/
theorem c5_counterexample :
    (investigateHlsFailure sampleBase true (fun _ => false) [none, none, none]).1.lastKnownStaleContent = some "" ∧
    (investigateHlsFailure sampleBase true (fun _ => false) [none, none, none]).1.offlinePoller = true ∧
    emptyMediaNet.fetchGet "http://h/media.m3u8" = some "" ∧
    normalizeM3u8Content (some "") =
      normalizeM3u8Content (investigateHlsFailure sampleBase true (fun _ => false) [none, none, none]).1.lastKnownStaleContent ∧
    (pollTick sampleEnv emptyMediaNet (investigateHlsFailure sampleBase true (fun _ => false) [none, none, none]).1).2.setups =
      [("http://h/m.m3u8", "offline-poll-success")] ∧
    (pollTick sampleEnv emptyMediaNet (investigateHlsFailure sampleBase true (fun _ => false) [none, none, none]).1).1 ≠
      (investigateHlsFailure sampleBase true (fun _ => false) [none, none, none]).1 := by
  decide

/-- C5 (amended): every offline-poller tick for an HLS source evaluates
`userSelectedUrl`; any fetch failure (master or media) is swallowed
with no state change and no setup; when the cached stale snapshot is
truthy (present and nonempty) and the normalized fetched media playlist
equals the normalized snapshot — including when they differ only in
segment query strings — nothing happens; otherwise (no cache, an empty
cached string, or differing normalized content) revival is declared:
the stale cache is cleared, polling stops, and setup is re-run for
`userSelectedUrl`. -/
theorem c5_poll_tick (env : PlayerEnv) (net : NetEnv) (s : PlayerState) (m mc uri f : String)
    (hm : s.userSelectedUrl = some m) (hm3 : endsWithStr m ".m3u8" = true) :
    (net.fetchGet m = none → pollTick env net s = (s, {})) ∧
    (net.fetchGet m = some mc → firstMediaUri mc = some uri →
      net.fetchGet (net.resolve uri m) = none → pollTick env net s = (s, {})) ∧
    (net.fetchGet m = some mc → firstMediaUri mc = some uri →
      net.fetchGet (net.resolve uri m) = some f →
      strTruthy s.lastKnownStaleContent = true →
      normalizeM3u8Content (some f) = normalizeM3u8Content s.lastKnownStaleContent →
      pollTick env net s = (s, {})) ∧
    (net.fetchGet m = some mc → firstMediaUri mc = some uri →
      net.fetchGet (net.resolve uri m) = some f →
      ¬(strTruthy s.lastKnownStaleContent = true ∧
        normalizeM3u8Content (some f) = normalizeM3u8Content s.lastKnownStaleContent) →
      (pollTick env net s).2.setups = [(m, "offline-poll-success")] ∧
      (pollTick env net s).1.offlinePoller = false ∧
      (pollTick env net s).1.lastKnownStaleContent = none ∧
      (pollTick env net s).1.userSelectedUrl = some m) := by
  have hne : m ≠ "" := endsWith_m3u8_ne_empty m hm3
  refine ⟨?_, ?_, ?_, ?_⟩
  · intro h1
    unfold pollTick
    rw [hm]
    simp [hne, hm3, h1]
  · intro h1 h2 h3
    unfold pollTick
    rw [hm]
    simp [hne, hm3, h1, h2, h3]
  · intro h1 h2 h3 h4 h5
    unfold pollTick
    rw [hm]
    simp [hne, hm3, h1, h2, h3, h4, h5]
  · intro h1 h2 h3 h4
    have hr : endsWithStr "offline-poll-success" "-recovery" = false := by decide
    unfold pollTick
    rw [hm]
    simp [hne, hm3, h1, h2, h3, h4, setupPlayer_valid_poller, setupPlayer_userSel_set, hr,
      setupPlayer_frame]

theorem c5_poll_tick_witness :
    ({sampleBase with lastKnownStaleContent := some "#EXTM3U\nseg1.ts\n", offlinePoller := true, offlineOverlay := true} : PlayerState).userSelectedUrl = some "http://h/m.m3u8" ∧
    staleNet.fetchGet "http://h/media.m3u8" = some "#EXTM3U\nseg1.ts?tok=2\n" ∧
    pollTick sampleEnv staleNet {sampleBase with lastKnownStaleContent := some "#EXTM3U\nseg1.ts\n", offlinePoller := true, offlineOverlay := true} =
      ({sampleBase with lastKnownStaleContent := some "#EXTM3U\nseg1.ts\n", offlinePoller := true, offlineOverlay := true}, {}) ∧
    revivedNet.fetchGet "http://h/media.m3u8" = some "#EXTM3U\nseg2.ts\n" ∧
    (pollTick sampleEnv revivedNet {sampleBase with lastKnownStaleContent := some "#EXTM3U\nseg1.ts\n", offlinePoller := true, offlineOverlay := true}).2.setups =
      [("http://h/m.m3u8", "offline-poll-success")] ∧
    (pollTick sampleEnv revivedNet {sampleBase with lastKnownStaleContent := some "#EXTM3U\nseg1.ts\n", offlinePoller := true, offlineOverlay := true}).1.offlinePoller = false :=
  ⟨by decide, by decide,
   (c5_poll_tick sampleEnv staleNet
      {sampleBase with lastKnownStaleContent := some "#EXTM3U\nseg1.ts\n", offlinePoller := true, offlineOverlay := true}
      "http://h/m.m3u8" "#EXTM3U\nmedia.m3u8\n" "media.m3u8" "#EXTM3U\nseg1.ts?tok=2\n"
      (by decide) (by decide)).2.2.1 (by decide) (by decide) (by decide) (by decide) (by decide),
   by decide,
   ((c5_poll_tick sampleEnv revivedNet
      {sampleBase with lastKnownStaleContent := some "#EXTM3U\nseg1.ts\n", offlinePoller := true, offlineOverlay := true}
      "http://h/m.m3u8" "#EXTM3U\nmedia.m3u8\n" "media.m3u8" "#EXTM3U\nseg2.ts\n"
      (by decide) (by decide)).2.2.2 (by decide) (by decide) (by decide) (by decide)).1,
   ((c5_poll_tick sampleEnv revivedNet
      {sampleBase with lastKnownStaleContent := some "#EXTM3U\nseg1.ts\n", offlinePoller := true, offlineOverlay := true}
      "http://h/m.m3u8" "#EXTM3U\nmedia.m3u8\n" "media.m3u8" "#EXTM3U\nseg2.ts\n"
      (by decide) (by decide)).2.2.2 (by decide) (by decide) (by decide) (by decide)).2.1⟩

end LivePlayer

namespace LivePlayer

lemma stripSegList_cons (c : Char) (rest : List Char) :
    stripSegList (c :: rest) =
      if c = '.' ∧ rest.take 3 = ['t', 's', '?'] then ['.', 't', 's']
      else c :: stripSegList rest := rfl

lemma normAux_nil (acc : List Char) : normAux acc [] = stripSegList acc.reverse := rfl

lemma normAux_cons (acc : List Char) (c : Char) (rest : List Char) :
    normAux acc (c :: rest) =
      if isLineTerm c then stripSegList acc.reverse ++ c :: normAux [] rest
      else normAux (c :: acc) rest := rfl

lemma stripSegList_no_q (l : List Char) (h : '?' ∉ l) : stripSegList l = l := by
  induction l with
  | nil => rfl
  | cons c rest ih =>
    rw [stripSegList_cons, if_neg, ih (fun hm => h (List.mem_cons_of_mem c hm))]
    rintro ⟨-, htake⟩
    have : '?' ∈ rest.take 3 := by
      rw [htake]
      simp
    exact h (List.mem_cons_of_mem c (List.take_subset 3 rest this))

lemma stripSegList_seg (p0 q : List Char) (h : '?' ∉ p0) :
    stripSegList (p0 ++ '.' :: 't' :: 's' :: '?' :: q) = p0 ++ ['.', 't', 's'] := by
  induction p0 with
  | nil =>
    rw [List.nil_append, List.nil_append, stripSegList_cons, if_pos ⟨rfl, rfl⟩]
  | cons c p0 ih =>
    have hni : '?' ∉ p0 := fun hm => h (List.mem_cons_of_mem c hm)
    rw [List.cons_append, stripSegList_cons, if_neg, ih hni, List.cons_append]
    rintro ⟨rfl, htake⟩
    match p0, h, htake with
    | [], h, htake => simp at htake
    | [a], h, htake =>
      simp only [List.cons_append, List.nil_append, List.take_succ_cons, List.take_zero] at htake
      injection htake with e1 htake
      injection htake with e2 htake
      exact absurd e2.symm (by decide)
    | [a, b], h, htake =>
      simp only [List.cons_append, List.nil_append, List.take_succ_cons, List.take_zero] at htake
      injection htake with e1 htake
      injection htake with e2 htake
      injection htake with e3 htake
      exact absurd e3.symm (by decide)
    | a :: b :: c2 :: rest, h, htake =>
      simp only [List.cons_append, List.take_succ_cons, List.take_zero] at htake
      injection htake with e1 htake
      injection htake with e2 htake
      injection htake with e3 htake
      exact h (by rw [e3]; simp)

lemma normAux_line (l : List Char) (hl : termFree l) :
    ∀ acc, normAux acc l = stripSegList (acc.reverse ++ l) := by
  induction l with
  | nil =>
    intro acc
    simp [normAux_nil]
  | cons c rest ih =>
    intro acc
    have hc : isLineTerm c = false := hl c (List.mem_cons_self c rest)
    have hrest : termFree rest := fun x hx => hl x (List.mem_cons_of_mem c hx)
    rw [normAux_cons, hc]
    simp only [Bool.false_eq_true, if_false]
    rw [ih hrest (c :: acc)]
    simp

lemma normAux_line_nl (l : List Char) (hl : termFree l) (t : Char) (ht : isLineTerm t = true)
    (rest : List Char) :
    ∀ acc, normAux acc (l ++ t :: rest) =
      stripSegList (acc.reverse ++ l) ++ t :: normAux [] rest := by
  induction l with
  | nil =>
    intro acc
    rw [List.nil_append, normAux_cons, ht]
    simp
  | cons c l2 ih =>
    intro acc
    have hc : isLineTerm c = false := hl c (List.mem_cons_self c l2)
    have hl2 : termFree l2 := fun x hx => hl x (List.mem_cons_of_mem c hx)
    rw [List.cons_append, normAux_cons, hc]
    simp only [Bool.false_eq_true, if_false]
    rw [ih hl2 (c :: acc)]
    simp

lemma normAux_joinNL (ls : List (List Char)) (h : ∀ l ∈ ls, termFree l) :
    normAux [] (joinNL ls) = joinNL (ls.map stripSegList) := by
  induction ls with
  | nil => rfl
  | cons a rest ih =>
    match rest with
    | [] =>
      show normAux [] (joinNL [a]) = joinNL [stripSegList a]
      unfold joinNL
      rw [normAux_line a (h a (List.mem_cons_self a [])) []]
      rfl
    | b :: rest2 =>
      have ha : termFree a := h a (List.mem_cons_self a (b :: rest2))
      have hrest : ∀ l ∈ b :: rest2, termFree l := fun l hl =>
        h l (List.mem_cons_of_mem a hl)
      show normAux [] (joinNL (a :: b :: rest2)) = joinNL ((a :: b :: rest2).map stripSegList)
      have hj : joinNL (a :: b :: rest2) = a ++ '\n' :: joinNL (b :: rest2) := rfl
      rw [hj, normAux_line_nl a ha '\n' (by decide) (joinNL (b :: rest2)) []]
      rw [List.reverse_nil, List.nil_append]
      rw [ih hrest]
      simp only [List.map_cons]
      rfl

lemma lineOK_strip (ln : PLine) (h : lineOK ln) :
    stripSegList (renderLine ln) = normalLine ln := by
  match ln with
  | .raw t => exact h.1
  | .seg p none =>
    exact stripSegList_no_q p h.2.1
  | .seg p (some q) =>
    obtain ⟨⟨p0, hp0⟩, hq, -, -⟩ := h
    have hq0 : '?' ∉ p0 := by
      intro hm
      exact hq (by rw [← hp0]; exact List.mem_append_left _ hm)
    show stripSegList (p ++ '?' :: q) = p
    rw [← hp0]
    have hre : p0 ++ ['.', 't', 's'] ++ '?' :: q = p0 ++ '.' :: 't' :: 's' :: '?' :: q := by
      simp
    rw [hre, stripSegList_seg p0 q hq0]

lemma lineOK_termFree (ln : PLine) (h : lineOK ln) : termFree (renderLine ln) := by
  match ln with
  | .raw t => exact h.2
  | .seg p none => exact h.2.2.1
  | .seg p (some q) =>
    obtain ⟨-, -, hp, hq⟩ := h
    intro c hc
    rcases List.mem_append.mp hc with hc | hc
    · exact hp c hc
    · rcases List.mem_cons.mp hc with rfl | hc
      · decide
      · exact hq c hc

lemma normalize_render (pl : List PLine) (h : ∀ ln ∈ pl, lineOK ln)
    (hne : renderPlaylist pl ≠ "") :
    normalizeM3u8Content (some (renderPlaylist pl)) =
      some ⟨joinNL (pl.map normalLine)⟩ := by
  have heq : normalizeM3u8Content (some (renderPlaylist pl)) =
      if renderPlaylist pl = "" then none
      else some ⟨normAux [] (renderPlaylist pl).data⟩ := rfl
  rw [heq, if_neg hne]
  unfold renderPlaylist
  have hterm : ∀ l ∈ pl.map renderLine, termFree l := by
    intro l hl
    rcases List.mem_map.mp hl with ⟨ln, hln, rfl⟩
    exact lineOK_termFree ln (h ln hln)
  have h1 : normAux [] (joinNL (pl.map renderLine)) =
      joinNL ((pl.map renderLine).map stripSegList) := normAux_joinNL _ hterm
  have h2 : (pl.map renderLine).map stripSegList = pl.map normalLine := by
    rw [List.map_map]
    exact List.map_congr_left (fun ln hln => lineOK_strip ln (h ln hln))
  show some (⟨normAux [] (joinNL (pl.map renderLine))⟩ : String) = _
  rw [h1, h2]

end LivePlayer

namespace LivePlayer

lemma nf_takeWhile (a x : List Char) (ha : ('\n' : Char) ∉ a) :
    (a ++ '\n' :: x).takeWhile (fun c => c != '\n') = a ∧
    (a ++ '\n' :: x).dropWhile (fun c => c != '\n') = '\n' :: x := by
  induction a with
  | nil => simp
  | cons c a2 ih =>
    have hc : c ≠ '\n' := fun hcc => ha (hcc ▸ List.mem_cons_self c a2)
    have ih2 := ih (fun hm => ha (List.mem_cons_of_mem c hm))
    simp only [List.cons_append, List.takeWhile_cons, List.dropWhile_cons]
    simp [hc, ih2.1, ih2.2]

lemma nf_append_inj (a b x y : List Char) (ha : ('\n' : Char) ∉ a)
    (hb : ('\n' : Char) ∉ b) (h : a ++ '\n' :: x = b ++ '\n' :: y) : a = b ∧ x = y := by
  have t1 := nf_takeWhile a x ha
  have t2 := nf_takeWhile b y hb
  have hab : a = b := by rw [← t1.1, ← t2.1, h]
  have hd : ('\n' : Char) :: x = '\n' :: y := by rw [← t1.2, ← t2.2, h]
  exact ⟨hab, by injection hd⟩

lemma joinNL_mem_nl (a b : List Char) (rest : List (List Char)) :
    ('\n' : Char) ∈ joinNL (a :: b :: rest) := by
  show ('\n' : Char) ∈ a ++ '\n' :: joinNL (b :: rest)
  exact List.mem_append_right a (List.mem_cons_self _ _)

lemma joinNL_inj : ∀ l1 l2 : List (List Char), (∀ a ∈ l1, ('\n' : Char) ∉ a) →
    (∀ a ∈ l2, ('\n' : Char) ∉ a) → l1 ≠ [] → l2 ≠ [] →
    joinNL l1 = joinNL l2 → l1 = l2 := by
  intro l1
  induction l1 with
  | nil =>
    intro l2 _ _ hn _ _
    exact absurd rfl hn
  | cons a rest ih =>
    intro l2 h1 h2 _ hn2 h
    match l2, hn2 with
    | b :: rest2, _ =>
      have ha : ('\n' : Char) ∉ a := h1 a (List.mem_cons_self a rest)
      have hb : ('\n' : Char) ∉ b := h2 b (List.mem_cons_self b rest2)
      match rest, rest2, h with
      | [], [], h =>
        have : a = b := h
        rw [this]
      | [], c :: rest3, h =>
        have : a = joinNL (b :: c :: rest3) := h
        exact absurd (this ▸ joinNL_mem_nl b c rest3) ha
      | c :: rest3, [], h =>
        have : joinNL (a :: c :: rest3) = b := h
        exact absurd (this ▸ joinNL_mem_nl a c rest3) hb
      | c :: rest3, d :: rest4, h =>
        have h' : a ++ '\n' :: joinNL (c :: rest3) = b ++ '\n' :: joinNL (d :: rest4) := h
        obtain ⟨hab, hjj⟩ := nf_append_inj _ _ _ _ ha hb h'
        have hrest := ih (d :: rest4) (fun z hz => h1 z (List.mem_cons_of_mem a hz))
          (fun z hz => h2 z (List.mem_cons_of_mem b hz)) (by simp) (by simp) hjj
        rw [hab, hrest]

lemma lineOK_normal_nl (ln : PLine) (h : lineOK ln) : ('\n' : Char) ∉ normalLine ln := by
  intro hm
  match ln, h with
  | .raw t, h => exact absurd (h.2 _ hm) (by decide)
  | .seg p q, h => exact absurd (h.2.2.1 _ hm) (by decide)

lemma renderPlaylist_ne_nil (pl : List PLine) (hne : renderPlaylist pl ≠ "") : pl ≠ [] := by
  intro hemp
  subst hemp
  exact hne rfl

lemma joinNL_nil_eq : joinNL [] = [] := rfl

lemma joinNL_single (a : List Char) : joinNL [a] = a := rfl

lemma queryOnlyEq_symm (x y : PLine) (h : queryOnlyEq x y) : queryOnlyEq y x := by
  match x, y, h with
  | .seg p q, .seg p2 q2, h => exact Eq.symm h
  | .raw t, .raw t2, h => exact Eq.symm h

lemma forall₂_queryOnlyEq_symm (l1 l2 : List PLine) (h : List.Forall₂ queryOnlyEq l1 l2) :
    List.Forall₂ queryOnlyEq l2 l1 := by
  induction h with
  | nil => exact List.Forall₂.nil
  | cons hr _ ih => exact List.Forall₂.cons (queryOnlyEq_symm _ _ hr) ih

lemma queryOnlyEq_normalLine : ∀ l1 l2 : List PLine, List.Forall₂ queryOnlyEq l1 l2 →
    l1.map normalLine = l2.map normalLine := by
  intro l1
  induction l1 with
  | nil =>
    intro l2 h
    cases h
    rfl
  | cons x rest ih =>
    intro l2 h
    cases h with
    | cons hr hrest =>
      rename_i y l2b
      have hxy : normalLine x = normalLine y := by
        match x, y, hr with
        | .seg p q, .seg p2 q2, hr => exact hr
        | .raw t, .raw t2, hr => exact hr
      simp only [List.map_cons, hxy, ih _ hrest]

lemma renderPlaylist_empty_iff (pl : List PLine) (h : ∀ ln ∈ pl, lineOK ln) :
    renderPlaylist pl = "" ↔ pl = [] ∨ pl = [.raw []] := by
  have hiff : renderPlaylist pl = "" ↔ joinNL (pl.map renderLine) = [] := by
    unfold renderPlaylist
    constructor
    · intro he
      have := congrArg String.data he
      simpa using this
    · intro he
      rw [he]
  rw [hiff]
  match pl with
  | [] =>
    constructor
    · intro _
      exact Or.inl rfl
    · intro _
      rfl
  | [ln] =>
    have hok := h ln (List.mem_cons_self ln [])
    match ln, hok with
    | .raw t, hok =>
      constructor
      · intro he
        have ht : t = [] := he
        simp [ht]
      · rintro (he | he)
        · exact absurd he (by simp)
        · cases he
          rfl
    | .seg p q, hok =>
      obtain ⟨⟨p0, hp0⟩, -, -, -⟩ := hok
      constructor
      · intro he
        exfalso
        match q, he with
        | none, he =>
          have hp : p = [] := he
          rw [hp] at hp0
          simp at hp0
        | some qq, he =>
          have hp : p ++ '?' :: qq = [] := he
          simp at hp
      · rintro (he | he) <;> simp at he
  | a :: b :: rest =>
    constructor
    · intro he
      exfalso
      have : renderLine a ++ '\n' :: joinNL ((b :: rest).map renderLine) = [] := he
      simp at this
    · rintro (he | he) <;> simp at he

lemma queryOnlyEq_empty_transfer (pl1 pl2 : List PLine)
    (h1 : ∀ ln ∈ pl1, lineOK ln) (h2 : ∀ ln ∈ pl2, lineOK ln)
    (hf : List.Forall₂ queryOnlyEq pl1 pl2) (he : renderPlaylist pl1 = "") :
    renderPlaylist pl2 = "" := by
  rw [renderPlaylist_empty_iff pl2 h2]
  rcases (renderPlaylist_empty_iff pl1 h1).mp he with rfl | rfl
  · left
    cases hf
    rfl
  · right
    match pl2, hf with
    | y :: l2, List.Forall₂.cons hr hrest =>
      cases hrest
      match y, hr with
      | .raw t, hr =>
        have : ([] : List Char) = t := hr
        rw [← this]

/-- C10 (counterexample): the normalizer maps the empty string (a
non-null input) to null, not to the empty string with query strings
stripped. -/
theorem c10_normalize_counterexample :
    normalizeM3u8Content (some "") = none ∧ normalizeM3u8Content (some "") ≠ some "" := by
  decide

/-- C10 (amended): `normalizeM3u8Content` returns null for null and for
the empty string; on well-formed playlists it strips segment query
strings line by line with no other transformation: two playlists equal
up to segment query strings normalize to equal strings, and two
nonempty playlists whose query-stripped lines differ anywhere (in
particular in a segment path) normalize to different strings. -/
theorem c10_normalize_contract :
    (normalizeM3u8Content none = none ∧ normalizeM3u8Content (some "") = none) ∧
    (∀ pl1 pl2 : List PLine, (∀ ln ∈ pl1, lineOK ln) → (∀ ln ∈ pl2, lineOK ln) →
      List.Forall₂ queryOnlyEq pl1 pl2 →
      normalizeM3u8Content (some (renderPlaylist pl1)) =
        normalizeM3u8Content (some (renderPlaylist pl2))) ∧
    (∀ pl1 pl2 : List PLine, (∀ ln ∈ pl1, lineOK ln) → (∀ ln ∈ pl2, lineOK ln) →
      renderPlaylist pl1 ≠ "" → renderPlaylist pl2 ≠ "" →
      pl1.map normalLine ≠ pl2.map normalLine →
      normalizeM3u8Content (some (renderPlaylist pl1)) ≠
        normalizeM3u8Content (some (renderPlaylist pl2))) := by
  refine ⟨⟨rfl, rfl⟩, ?_, ?_⟩
  · intro pl1 pl2 h1 h2 hf
    by_cases hre : renderPlaylist pl1 = ""
    · have hre2 : renderPlaylist pl2 = "" := queryOnlyEq_empty_transfer pl1 pl2 h1 h2 hf hre
      rw [hre, hre2]
    · have hre2 : renderPlaylist pl2 ≠ "" := by
        intro he2
        exact hre (queryOnlyEq_empty_transfer pl2 pl1 h2 h1
          (forall₂_queryOnlyEq_symm pl1 pl2 hf) he2)
      rw [normalize_render pl1 h1 hre, normalize_render pl2 h2 hre2,
        queryOnlyEq_normalLine pl1 pl2 hf]
  · intro pl1 pl2 h1 h2 hre1 hre2 hdiff heq
    rw [normalize_render pl1 h1 hre1, normalize_render pl2 h2 hre2] at heq
    have hj : joinNL (pl1.map normalLine) = joinNL (pl2.map normalLine) := by
      have := Option.some.inj heq
      exact congrArg String.data this
    have hnl1 : ∀ a ∈ pl1.map normalLine, ('\n' : Char) ∉ a := by
      intro a ha
      rcases List.mem_map.mp ha with ⟨ln, hln, rfl⟩
      exact lineOK_normal_nl ln (h1 ln hln)
    have hnl2 : ∀ a ∈ pl2.map normalLine, ('\n' : Char) ∉ a := by
      intro a ha
      rcases List.mem_map.mp ha with ⟨ln, hln, rfl⟩
      exact lineOK_normal_nl ln (h2 ln hln)
    have hne1 : pl1.map normalLine ≠ [] := by
      simp [renderPlaylist_ne_nil pl1 hre1]
    have hne2 : pl2.map normalLine ≠ [] := by
      simp [renderPlaylist_ne_nil pl2 hre2]
    exact hdiff (joinNL_inj _ _ hnl1 hnl2 hne1 hne2 hj)

theorem c10_normalize_contract_witness :
    (∀ ln ∈ plQuery1, lineOK ln) ∧ (∀ ln ∈ plQuery2, lineOK ln) ∧
    (∀ ln ∈ plPath3, lineOK ln) ∧
    renderPlaylist plQuery1 = "#EXTM3U\nseg1.ts?a=1" ∧
    renderPlaylist plPath3 = "#EXTM3U\nseg2.ts" ∧
    normalizeM3u8Content (some (renderPlaylist plQuery1)) =
      normalizeM3u8Content (some (renderPlaylist plQuery2)) ∧
    normalizeM3u8Content (some (renderPlaylist plQuery1)) ≠
      normalizeM3u8Content (some (renderPlaylist plPath3)) :=
  ⟨by decide, by decide, by decide, by decide, by decide,
   c10_normalize_contract.2.1 plQuery1 plQuery2 (by decide) (by decide)
     (List.Forall₂.cons rfl (List.Forall₂.cons rfl List.Forall₂.nil)),
   c10_normalize_contract.2.2 plQuery1 plPath3 (by decide) (by decide)
     (by decide) (by decide) (by decide)⟩

end LivePlayer
